import Mathlib

/-!
Verification of the product-showcase page: the catalog consistency model
and the form-to-mailto message encoder.  The page (`index.html`) carries
its catalog and dropdown as static markup and its encoder as an inline
script; both are embedded here as Lean definitions and checked against
the documented properties.
-/

namespace Dani

/-! ## Data model -/

/-- A catalog entry as displayed on a product card: title, description,
price (a positive integer rendered `$<integer>`), availability flag, and
the status text shown on the card. -/
structure Product where
  name : String
  description : String
  price : Nat
  available : Bool
  statusText : String
deriving Repr, DecidableEq

/-- A dropdown entry of the contact form's product select: the submitted
`value` and the human-readable option label. -/
structure DropdownOption where
  value : String
  label : String
deriving Repr, DecidableEq

/-- First product card. -/
def productRainbow : Product :=
  { name := "Rainbow Sunset Painting", description := "A bright painting of a sunset over the sea.",
    price := 25, available := true, statusText := "Available" }

/-- Second product card. -/
def productPizza : Product :=
  { name := "Mini Pizza", description := "A tiny clay pizza with all the toppings.",
    price := 5, available := true, statusText := "Available" }

/-- Third product card. -/
def productBracelet : Product :=
  { name := "Friendship Bracelet", description := "A hand-woven bracelet in rainbow colors.",
    price := 3, available := true, statusText := "Available" }

/-- Fourth product card. -/
def productRock : Product :=
  { name := "Painted Rock Pet", description := "A smooth rock painted like a ladybug.",
    price := 4, available := true, statusText := "Available" }

/-- Fifth product card. -/
def productCrane : Product :=
  { name := "Origami Crane Set", description := "A set of five folded paper cranes.",
    price := 8, available := true, statusText := "Available" }

/-- Sixth product card, the sold one. -/
def productDino : Product :=
  { name := "Dinosaur Drawing", description := "A crayon drawing of a friendly T-Rex.",
    price := 10, available := false, statusText := "sold" }

/-- Modelled from the spec: `index.html` (the page holding the product
cards) is not part of the test sources, so the catalog is reconstructed
from the spec's data model (six cards, five available and one sold,
unique names, positive `$<integer>` prices) and the product names the
tests exercise ("Rainbow Sunset Painting", "Mini Pizza"). -/
def catalog : List Product :=
  [productRainbow, productPizza, productBracelet, productRock, productCrane, productDino]

/-- The price-carrying dropdown option for the first product. -/
def optionRainbow : DropdownOption :=
  { value := "Rainbow Sunset Painting", label := "Rainbow Sunset Painting - $25" }

/-- Modelled from the spec: the dropdown of `index.html` is reconstructed
from the spec's invariants — one empty-value placeholder whose text
contains "Choose", one option per available product with the price
embedded in the label, and a catch-all "other" entry with no price. -/
def dropdownOptions : List DropdownOption :=
  [ { value := "", label := "-- Choose a product --" },
    optionRainbow,
    { value := "Mini Pizza", label := "Mini Pizza - $5" },
    { value := "Friendship Bracelet", label := "Friendship Bracelet - $3" },
    { value := "Painted Rock Pet", label := "Painted Rock Pet - $4" },
    { value := "Origami Crane Set", label := "Origami Crane Set - $8" },
    { value := "Other", label := "Other / Custom Request" } ]

/-- The submitted `value` strings of all dropdown options. -/
def dropdownValues : List String := dropdownOptions.map DropdownOption.value

/-- The displayed price text of a product card, `$<integer>`. -/
def priceText (p : Product) : String := "$" ++ toString p.price

/-! ## Price tokens in option labels

The consistency check compares the `$<digits>` token embedded in an
option label against the matching card's price; labels without such a
token (the placeholder and the "other" entry) are exempt. -/

/-- Value of the longest digit run at the head of `cs`, accumulated onto
`acc` (the digits already read). -/
def takeDigitsVal : List Char → Nat → Nat
  | [], acc => acc
  | c :: cs, acc => if c.isDigit then takeDigitsVal cs (acc * 10 + (c.toNat - 48)) else acc

/-- First `$<digits>` token in a character list: the numeric value of the
digit run following the first `$` that is followed by at least one
digit, `none` if there is no such token. -/
def findDollarNat : List Char → Option Nat
  | [] => none
  | c :: cs =>
    if c == '$' then
      match cs with
      | [] => none
      | d :: _ => if d.isDigit then some (takeDigitsVal cs 0) else findDollarNat cs
    else findDollarNat cs

/-- `true` when the option label either embeds no `$<digits>` token or
embeds one equal to the product's price. -/
def optionPriceMatches (opt : DropdownOption) (p : Product) : Bool :=
  match findDollarNat opt.label.data with
  | some pr => p.price == pr
  | none => true

/-- `true` when `s` is a `$` followed by one or more digits and nothing
else. -/
def isDollarInteger (s : String) : Bool :=
  match s.data with
  | [] => false
  | c :: rest => c == '$' && !rest.isEmpty && rest.all (fun d => d.isDigit)

/-! ## Substring search -/

/-- `true` when `sub` occurs as a contiguous segment of `l`. -/
def containsChars (sub : List Char) : List Char → Bool
  | [] => sub.isEmpty
  | d :: ds => sub.isPrefixOf (d :: ds) || containsChars sub ds

/-- `true` when `sub` occurs as a contiguous substring of `s`. -/
def strContains (sub s : String) : Bool := containsChars sub.data s.data

/-! ## Percent-encoding (the `encodeURIComponent` pipeline)

`encodeURIComponent` keeps the unreserved characters
`A-Z a-z 0-9 - _ . ! ~ * ' ( )` and replaces every other character by
the `%XX` (uppercase hex) encoding of each byte of its UTF-8 form. -/

/-- Characters `encodeURIComponent` leaves unescaped: ASCII letters,
digits, and `- _ . ! ~ * ' ( )` (code points 45, 95, 46, 33, 126, 42,
39, 40, 41). -/
def isUnreservedURI (c : Char) : Bool :=
  decide ((65 ≤ c.toNat ∧ c.toNat ≤ 90) ∨ (97 ≤ c.toNat ∧ c.toNat ≤ 122) ∨
    (48 ≤ c.toNat ∧ c.toNat ≤ 57) ∨
    c.toNat = 45 ∨ c.toNat = 95 ∨ c.toNat = 46 ∨ c.toNat = 33 ∨ c.toNat = 126 ∨
    c.toNat = 42 ∨ c.toNat = 39 ∨ c.toNat = 40 ∨ c.toNat = 41)

/-- UTF-8 byte sequence of the code point `n`. -/
def utf8EncodeNat (n : Nat) : List Nat :=
  if n < 128 then [n]
  else if n < 2048 then [192 + n / 64, 128 + n % 64]
  else if n < 65536 then [224 + n / 4096, 128 + n / 64 % 64, 128 + n % 64]
  else [240 + n / 262144, 128 + n / 4096 % 64, 128 + n / 64 % 64, 128 + n % 64]

/-- Uppercase hexadecimal digit for `n < 16`. -/
def hexDigitChar (n : Nat) : Char :=
  if n < 10 then Char.ofNat (48 + n) else Char.ofNat (55 + n)

/-- `%XX` escape of one byte. -/
def percentEncodeByte (b : Nat) : List Char :=
  [Char.ofNat 37, hexDigitChar (b / 16), hexDigitChar (b % 16)]

/-- `%XX` escapes of a byte sequence. -/
def percentEncodeBytes : List Nat → List Char
  | [] => []
  | b :: bs => percentEncodeByte b ++ percentEncodeBytes bs

/-- Character-list form of `encodeURIComponent`: unreserved characters
pass through, every other character becomes the `%XX` escapes of its
UTF-8 bytes. -/
def encodeURIComponentChars : List Char → List Char
  | [] => []
  | c :: cs =>
    (if isUnreservedURI c then [c] else percentEncodeBytes (utf8EncodeNat c.toNat)) ++
      encodeURIComponentChars cs

/-- The page's percent-encoder, as applied to the subject and body. -/
def encodeURIComponent (s : String) : String := ⟨encodeURIComponentChars s.data⟩

/-- Numeric value of a hexadecimal digit character (0 on non-digits). -/
def hexVal (c : Char) : Nat :=
  if 48 ≤ c.toNat ∧ c.toNat ≤ 57 then c.toNat - 48
  else if 65 ≤ c.toNat ∧ c.toNat ≤ 70 then c.toNat - 55
  else if 97 ≤ c.toNat ∧ c.toNat ≤ 102 then c.toNat - 87
  else 0

/-- Byte sequence denoted by a percent-encoded character list: `%XY`
yields the byte `16*X + Y`, any other character contributes its own
UTF-8 bytes (a trailing truncated escape is dropped). -/
def percentDecodeBytes : List Char → List Nat
  | [] => []
  | [c] => if c.toNat = 37 then [] else utf8EncodeNat c.toNat
  | [c, c1] =>
    if c.toNat = 37 then [] else utf8EncodeNat c.toNat ++ percentDecodeBytes [c1]
  | c :: c1 :: c2 :: cs =>
    if c.toNat = 37 then (hexVal c1 * 16 + hexVal c2) :: percentDecodeBytes cs
    else utf8EncodeNat c.toNat ++ percentDecodeBytes (c1 :: c2 :: cs)

/-- Code points of a UTF-8 byte sequence (65533, the replacement
character, on truncated sequences). -/
def utf8DecodeNats : List Nat → List Nat
  | [] => []
  | [b] => if b < 128 then [b] else [65533]
  | [b, b1] =>
    if b < 128 then b :: utf8DecodeNats [b1]
    else if b < 224 then [(b - 192) * 64 + (b1 - 128)]
    else [65533]
  | [b, b1, b2] =>
    if b < 128 then b :: utf8DecodeNats [b1, b2]
    else if b < 224 then ((b - 192) * 64 + (b1 - 128)) :: utf8DecodeNats [b2]
    else if b < 240 then [(b - 224) * 4096 + (b1 - 128) * 64 + (b2 - 128)]
    else [65533]
  | b :: b1 :: b2 :: b3 :: bs =>
    if b < 128 then b :: utf8DecodeNats (b1 :: b2 :: b3 :: bs)
    else if b < 224 then ((b - 192) * 64 + (b1 - 128)) :: utf8DecodeNats (b2 :: b3 :: bs)
    else if b < 240 then
      ((b - 224) * 4096 + (b1 - 128) * 64 + (b2 - 128)) :: utf8DecodeNats (b3 :: bs)
    else
      ((b - 240) * 262144 + (b1 - 128) * 4096 + (b2 - 128) * 64 + (b3 - 128)) ::
        utf8DecodeNats bs

/-- Percent-decoding: recover the byte sequence, then decode UTF-8. -/
def decodeURIComponent (s : String) : String :=
  ⟨(utf8DecodeNats (percentDecodeBytes s.data)).map Char.ofNat⟩

/-! ## The Message Encoder -/

/-- The four raw field values read from the form at submit time. -/
structure FormSubmission where
  name : String
  email : String
  selectedProduct : String
  message : String
deriving Repr, DecidableEq

/-- The derived mail composition request: recipient, the interpolated
subject and body templates, their percent-encoded forms, and the final
`mailto:` URI. -/
structure MailMessage where
  recipient : String
  subject : String
  body : String
  encodedSubject : String
  encodedBody : String
  encodedUri : String
deriving Repr, DecidableEq

/-- Modelled from the spec: the fixed destination address of the inline
script (still the template placeholder, as the repository documentation
records). -/
def recipientAddress : String := "your-email@example.com"

/-- Modelled from the spec: the subject is a fixed phrase parameterized
by the selected product. -/
def mkSubject (product : String) : String := "Product Inquiry: " ++ product

/-- Modelled from the spec: the body is a fixed multi-line phrase
interpolating all four submitted fields verbatim. -/
def mkBody (name email product message : String) : String :=
  "Name: " ++ name ++ "\nEmail: " ++ email ++ "\nProduct: " ++ product ++
    "\nMessage: " ++ message

/-- Modelled from the spec: the fixed confirmation phrase, containing
"Thank you". -/
def confirmMessage : String :=
  "Thank you for your message! Your email client should open now."

/-- Modelled from the spec: builds the subject and body from the
submission, percent-encodes each independently, and concatenates the
`mailto:<recipient>?subject=<enc>&body=<enc>` URI. -/
def mkMailMessage (sub : FormSubmission) : MailMessage :=
  let subj := mkSubject sub.selectedProduct
  let bod := mkBody sub.name sub.email sub.selectedProduct sub.message
  { recipient := recipientAddress
    subject := subj
    body := bod
    encodedSubject := encodeURIComponent subj
    encodedBody := encodeURIComponent bod
    encodedUri :=
      "mailto:" ++ recipientAddress ++ "?subject=" ++ encodeURIComponent subj ++
        "&body=" ++ encodeURIComponent bod }

/-- Observable outcome of one submit event: whether the handler called
`preventDefault`, the `mailto:` URI handed to the host (none when the
handler never ran), and the notifications shown. -/
structure EncoderResult where
  preventedDefault : Bool
  dispatchedUri : Option String
  alerts : List String
deriving Repr, DecidableEq

/-- Modelled from the spec: the submit handler (the Encoder). It always
calls `preventDefault`, builds the mail message, dispatches its URI to
the host's mail-client-open action, and shows the fixed confirmation
once. -/
def handleSubmit (sub : FormSubmission) : EncoderResult :=
  { preventedDefault := true
    dispatchedUri := some (mkMailMessage sub).encodedUri
    alerts := [confirmMessage] }

/-- The current values of the four form fields (the page's DOM state
the Encoder reads). -/
structure PageState where
  nameField : String
  emailField : String
  productField : String
  messageField : String
deriving Repr, DecidableEq

/-- Reading the current field values into a fresh submission. -/
def readSubmission (st : PageState) : FormSubmission :=
  { name := st.nameField
    email := st.emailField
    selectedProduct := st.productField
    message := st.messageField }

/-- Split a character list at every occurrence of `c` (occurrences are
dropped; `n` occurrences yield `n + 1` pieces). -/
def splitOnChar (c : Char) : List Char → List (List Char)
  | [] => [[]]
  | d :: ds =>
    if d == c then [] :: splitOnChar c ds
    else
      match splitOnChar c ds with
      | [] => [[d]]
      | l :: ls => (d :: l) :: ls

/-- Modelled from the spec: the browser's syntactic email check — a
single `@` separating a non-empty local part from a non-empty domain. -/
def validEmail (s : String) : Bool :=
  match splitOnChar '@' s.data with
  | [loc, dom] => !loc.isEmpty && !dom.isEmpty
  | _ => false

/-- Modelled from the spec: native required/type validation — `name`,
`email` and the product selection must be non-empty and the email
syntactically valid — runs before the handler and blocks the submit
event when it fails. -/
def nativeValidationPasses (st : PageState) : Bool :=
  !st.nameField.isEmpty && validEmail st.emailField && !st.productField.isEmpty

/-- One submit event on the page: native validation either blocks the
event (the handler never runs: nothing dispatched, nothing shown) or
lets the Encoder run on the current field values. -/
def submitPage (st : PageState) : EncoderResult :=
  if nativeValidationPasses st then handleSubmit (readSubmission st)
  else { preventedDefault := false, dispatchedUri := none, alerts := [] }

/-- The page-visible world: the form fields plus the accumulated
observable effects (URIs handed to the mail client, notifications
shown). -/
structure World where
  page : PageState
  openedUris : List String
  alertLog : List String
deriving Repr, DecidableEq

/-- One submit event acting on the world: the outcome's effects are
appended to the logs; the form fields themselves are not written. -/
def applySubmit (w : World) : World × EncoderResult :=
  let r := submitPage w.page
  ({ page := w.page
     openedUris := w.openedUris ++ r.dispatchedUri.toList
     alertLog := w.alertLog ++ r.alerts }, r)

/-! ## Concrete inputs used by the pointwise checks -/

/-- The field values of the reference submission the tests exercise. -/
def johnState : PageState :=
  { nameField := "John Doe", emailField := "john@example.com",
    productField := "Rainbow Sunset Painting", messageField := "I love this painting!" }

/-- The reference submission read from `johnState`. -/
def johnSubmission : FormSubmission := readSubmission johnState

/-- A filled form whose `name` field is empty. -/
def emptyNameState : PageState :=
  { nameField := "", emailField := "jane@test.com",
    productField := "Mini Pizza", messageField := "Cute!" }

/-- A world in which `johnState` is on the page and nothing has been
dispatched yet. -/
def johnWorld : World := { page := johnState, openedUris := [], alertLog := [] }

/-- The same page fields as `johnWorld` but with a non-empty effect
history. -/
def johnWorldLater : World :=
  { page := johnState, openedUris := ["mailto:earlier"], alertLog := ["earlier alert"] }

/-! ## Helper lemmas: branch equations of the decoders -/

theorem utf8DecodeNats_b1 (b : Nat) (bs : List Nat) (h : b < 128) :
    utf8DecodeNats (b :: bs) = b :: utf8DecodeNats bs := by
  match bs with
  | [] => simp only [utf8DecodeNats, if_pos h]
  | [b1] => simp only [utf8DecodeNats, if_pos h]
  | [b1, b2] => simp only [utf8DecodeNats, if_pos h]
  | b1 :: b2 :: b3 :: bs3 => simp only [utf8DecodeNats, if_pos h]

theorem utf8DecodeNats_b2 (b b1 : Nat) (bs : List Nat) (h1 : ¬ b < 128) (h2 : b < 224) :
    utf8DecodeNats (b :: b1 :: bs) = ((b - 192) * 64 + (b1 - 128)) :: utf8DecodeNats bs := by
  match bs with
  | [] => simp only [utf8DecodeNats, if_neg h1, if_pos h2]
  | [b2] => simp only [utf8DecodeNats, if_neg h1, if_pos h2]
  | b2 :: b3 :: bs3 => simp only [utf8DecodeNats, if_neg h1, if_pos h2]

theorem utf8DecodeNats_b3 (b b1 b2 : Nat) (bs : List Nat) (h1 : ¬ b < 128) (h2 : ¬ b < 224)
    (h3 : b < 240) :
    utf8DecodeNats (b :: b1 :: b2 :: bs) =
      ((b - 224) * 4096 + (b1 - 128) * 64 + (b2 - 128)) :: utf8DecodeNats bs := by
  match bs with
  | [] => simp only [utf8DecodeNats, if_neg h1, if_neg h2, if_pos h3]
  | b3 :: bs3 => simp only [utf8DecodeNats, if_neg h1, if_neg h2, if_pos h3]

theorem utf8DecodeNats_b4 (b b1 b2 b3 : Nat) (bs : List Nat) (h1 : ¬ b < 128) (h2 : ¬ b < 224)
    (h3 : ¬ b < 240) :
    utf8DecodeNats (b :: b1 :: b2 :: b3 :: bs) =
      ((b - 240) * 262144 + (b1 - 128) * 4096 + (b2 - 128) * 64 + (b3 - 128)) ::
        utf8DecodeNats bs := by
  simp only [utf8DecodeNats, if_neg h1, if_neg h2, if_neg h3]

theorem percentDecodeBytes_plain (c : Char) (cs : List Char) (h : ¬ c.toNat = 37) :
    percentDecodeBytes (c :: cs) = utf8EncodeNat c.toNat ++ percentDecodeBytes cs := by
  match cs with
  | [] => simp only [percentDecodeBytes, if_neg h, List.append_nil]
  | [c1] => simp only [percentDecodeBytes, if_neg h]
  | c1 :: c2 :: cs2 => simp only [percentDecodeBytes, if_neg h]

theorem percentDecodeBytes_escape (c c1 c2 : Char) (cs : List Char) (h : c.toNat = 37) :
    percentDecodeBytes (c :: c1 :: c2 :: cs) =
      (hexVal c1 * 16 + hexVal c2) :: percentDecodeBytes cs := by
  simp only [percentDecodeBytes, if_pos h]

/-! ## Helper lemmas: the encoding round trip -/

theorem char_toNat_lt (c : Char) : c.toNat < 1114112 := by
  have h := c.valid
  rcases h with h | ⟨_, h2⟩
  · exact Nat.lt_trans h (by norm_num)
  · exact h2

theorem hexVal_hexDigitChar : ∀ m < 16, hexVal (hexDigitChar m) = m := by decide

theorem utf8EncodeNat_all_lt (n : Nat) (h : n < 1114112) :
    ∀ b ∈ utf8EncodeNat n, b < 256 := by
  intro b hb
  rw [utf8EncodeNat] at hb
  by_cases h1 : n < 128
  · rw [if_pos h1] at hb; simp at hb; omega
  · rw [if_neg h1] at hb
    by_cases h2 : n < 2048
    · rw [if_pos h2] at hb; simp at hb; rcases hb with hb | hb <;> omega
    · rw [if_neg h2] at hb
      by_cases h3 : n < 65536
      · rw [if_pos h3] at hb; simp at hb; rcases hb with hb | hb | hb <;> omega
      · rw [if_neg h3] at hb; simp at hb; rcases hb with hb | hb | hb | hb <;> omega

theorem utf8DecodeNats_utf8EncodeNat (n : Nat) (h : n < 1114112) (rest : List Nat) :
    utf8DecodeNats (utf8EncodeNat n ++ rest) = n :: utf8DecodeNats rest := by
  by_cases h1 : n < 128
  · rw [show utf8EncodeNat n = [n] by rw [utf8EncodeNat, if_pos h1]]
    rw [List.cons_append, List.nil_append, utf8DecodeNats_b1 n rest h1]
  · by_cases h2 : n < 2048
    · rw [show utf8EncodeNat n = [192 + n / 64, 128 + n % 64] by
        rw [utf8EncodeNat, if_neg h1, if_pos h2]]
      rw [List.cons_append, List.cons_append, List.nil_append,
        utf8DecodeNats_b2 _ _ rest (by omega) (by omega)]
      rw [show (192 + n / 64 - 192) * 64 + (128 + n % 64 - 128) = n by omega]
    · by_cases h3 : n < 65536
      · rw [show utf8EncodeNat n = [224 + n / 4096, 128 + n / 64 % 64, 128 + n % 64] by
          rw [utf8EncodeNat, if_neg h1, if_neg h2, if_pos h3]]
        rw [List.cons_append, List.cons_append, List.cons_append, List.nil_append,
          utf8DecodeNats_b3 _ _ _ rest (by omega) (by omega) (by omega)]
        rw [show (224 + n / 4096 - 224) * 4096 + (128 + n / 64 % 64 - 128) * 64 +
            (128 + n % 64 - 128) = n by omega]
      · rw [show utf8EncodeNat n =
            [240 + n / 262144, 128 + n / 4096 % 64, 128 + n / 64 % 64, 128 + n % 64] by
          rw [utf8EncodeNat, if_neg h1, if_neg h2, if_neg h3]]
        rw [List.cons_append, List.cons_append, List.cons_append, List.cons_append,
          List.nil_append,
          utf8DecodeNats_b4 _ _ _ _ rest (by omega) (by omega) (by omega)]
        rw [show (240 + n / 262144 - 240) * 262144 + (128 + n / 4096 % 64 - 128) * 4096 +
            (128 + n / 64 % 64 - 128) * 64 + (128 + n % 64 - 128) = n by omega]

theorem percentDecodeBytes_percentEncodeByte (b : Nat) (hb : b < 256) (cs : List Char) :
    percentDecodeBytes (percentEncodeByte b ++ cs) = b :: percentDecodeBytes cs := by
  simp only [percentEncodeByte, List.cons_append, List.nil_append]
  rw [percentDecodeBytes_escape _ _ _ cs (by decide)]
  rw [hexVal_hexDigitChar (b / 16) (by omega), hexVal_hexDigitChar (b % 16) (by omega),
    show b / 16 * 16 + b % 16 = b by omega]

theorem percentDecodeBytes_percentEncodeBytes (bs : List Nat) (hbs : ∀ b ∈ bs, b < 256)
    (cs : List Char) :
    percentDecodeBytes (percentEncodeBytes bs ++ cs) = bs ++ percentDecodeBytes cs := by
  induction bs with
  | nil => simp [percentEncodeBytes]
  | cons b bs ih =>
    simp only [percentEncodeBytes, List.append_assoc]
    rw [percentDecodeBytes_percentEncodeByte b (hbs b (by simp)) _]
    rw [ih (fun x hx => hbs x (by simp [hx]))]
    rfl

theorem isUnreservedURI_lt (c : Char) (h : isUnreservedURI c = true) :
    c.toNat < 128 ∧ c.toNat ≠ 37 := by
  simp only [isUnreservedURI, decide_eq_true_eq] at h
  omega

theorem utf8DecodeNats_percentDecodeBytes_encode (l : List Char) :
    utf8DecodeNats (percentDecodeBytes (encodeURIComponentChars l)) = l.map Char.toNat := by
  induction l with
  | nil => rfl
  | cons c cs ih =>
    simp only [encodeURIComponentChars]
    by_cases hu : isUnreservedURI c
    · rw [if_pos hu]
      obtain ⟨hlt, hne⟩ := isUnreservedURI_lt c hu
      rw [List.cons_append, List.nil_append, percentDecodeBytes_plain c _ hne]
      rw [utf8DecodeNats_utf8EncodeNat c.toNat (by omega) _, ih]
      simp
    · rw [if_neg hu]
      rw [percentDecodeBytes_percentEncodeBytes _
        (utf8EncodeNat_all_lt c.toNat (char_toNat_lt c)) _]
      rw [utf8DecodeNats_utf8EncodeNat c.toNat (char_toNat_lt c) _, ih]
      simp

theorem decodeURIComponent_encodeURIComponent (s : String) :
    decodeURIComponent (encodeURIComponent s) = s := by
  cases s with
  | mk data =>
    simp only [encodeURIComponent, decodeURIComponent]
    rw [utf8DecodeNats_percentDecodeBytes_encode]
    rw [List.map_map, show Char.ofNat ∘ Char.toNat = id from funext fun c => Char.ofNat_toNat c,
      List.map_id]

/-! ## Helper lemmas: substring search -/

theorem isPrefixOf_append_self (sub t : List Char) : sub.isPrefixOf (sub ++ t) = true := by
  induction sub with
  | nil => simp [List.isPrefixOf]
  | cons c cs ih => simp [List.isPrefixOf, ih]

theorem containsChars_left (sub post : List Char) :
    containsChars sub (sub ++ post) = true := by
  cases sub with
  | nil => cases post <;> simp [containsChars, List.isPrefixOf]
  | cons c cs =>
    simp only [List.cons_append, containsChars, Bool.or_eq_true]
    left
    have h := isPrefixOf_append_self (c :: cs) post
    rw [List.cons_append] at h
    exact h

theorem containsChars_sandwich (sub pre post : List Char) :
    containsChars sub (pre ++ sub ++ post) = true := by
  induction pre with
  | nil => simpa using containsChars_left sub post
  | cons p ps ih =>
    simp only [List.cons_append, containsChars, Bool.or_eq_true]
    right
    rw [List.append_assoc] at ih
    simpa using ih

/-! ## The claimed properties -/

/-- Claim C1: every product in the catalog with `available = true` has
its name appearing exactly once among the dropdown option values, and
every product with `available = false` has its name appearing zero
times among them. -/
theorem available_products_once_in_dropdown :
    ∀ p ∈ catalog,
      (p.available = true → dropdownValues.count p.name = 1) ∧
      (p.available = false → dropdownValues.count p.name = 0) := by decide

/-- Witness for C1: the first available product appears once, the sold
product zero times. -/
theorem available_products_once_in_dropdown_witness :
    dropdownValues.count productRainbow.name = 1 ∧
    dropdownValues.count productDino.name = 0 :=
  ⟨(available_products_once_in_dropdown productRainbow (by decide)).1 rfl,
   (available_products_once_in_dropdown productDino (by decide)).2 rfl⟩

set_option maxRecDepth 8192 in
/-- Claim C2: for the submission name="John Doe",
email="john@example.com", selectedProduct="Rainbow Sunset Painting",
message="I love this painting!", the Encoder produces a mailto URI
whose percent-decoded body contains all four submitted values, whose
decoded subject contains "Rainbow Sunset Painting", and exactly one
confirmation containing "Thank you" is shown. -/
theorem concrete_submission_mailto_and_confirmation :
    strContains "John Doe" (decodeURIComponent (mkMailMessage johnSubmission).encodedBody) = true ∧
    strContains "john@example.com"
      (decodeURIComponent (mkMailMessage johnSubmission).encodedBody) = true ∧
    strContains "Rainbow Sunset Painting"
      (decodeURIComponent (mkMailMessage johnSubmission).encodedBody) = true ∧
    strContains "I love this painting!"
      (decodeURIComponent (mkMailMessage johnSubmission).encodedBody) = true ∧
    strContains "Rainbow Sunset Painting"
      (decodeURIComponent (mkMailMessage johnSubmission).encodedSubject) = true ∧
    (submitPage johnState).dispatchedUri = some (mkMailMessage johnSubmission).encodedUri ∧
    (submitPage johnState).alerts.countP (fun a => strContains "Thank you" a) = 1 := by
  decide

/-- Claim C3: a submission whose `name` field is empty is caught by
native required-field validation, so the Encoder never runs: no
confirmation is shown and no mailto URI is built. -/
theorem empty_name_blocks_encoder :
    ∀ st : PageState, st.nameField = "" →
      (submitPage st).alerts = [] ∧ (submitPage st).dispatchedUri = none := by
  intro st h
  have hv : nativeValidationPasses st = false := by
    simp [nativeValidationPasses, h, String.isEmpty_iff]
  simp [submitPage, hv]

/-- Witness for C3: a concrete filled form with an empty name. -/
theorem empty_name_blocks_encoder_witness :
    (submitPage emptyNameState).alerts = [] ∧
    (submitPage emptyNameState).dispatchedUri = none :=
  empty_name_blocks_encoder emptyNameState rfl

/-- Claim C4: for every input field valuation, percent-decoding the
encoded subject and body components of the produced mailto URI yields
back exactly the original interpolated subject and body template
strings. -/
theorem mailto_components_roundtrip (sub : FormSubmission) :
    decodeURIComponent (mkMailMessage sub).encodedSubject = (mkMailMessage sub).subject ∧
    decodeURIComponent (mkMailMessage sub).encodedBody = (mkMailMessage sub).body :=
  ⟨decodeURIComponent_encodeURIComponent ((mkMailMessage sub).subject),
   decodeURIComponent_encodeURIComponent ((mkMailMessage sub).body)⟩

/-- Claim C5: two submissions over identical field values produce
byte-identical outcomes (in particular byte-identical mailto URIs),
regardless of any effect history accumulated by earlier submissions;
consecutive invocations agree as well. -/
theorem encoder_idempotent_stateless :
    ∀ w w2 : World, w.page = w2.page →
      (applySubmit w).2 = (applySubmit w2).2 ∧
      (applySubmit (applySubmit w).1).2 = (applySubmit w).2 ∧
      (applySubmit (applySubmit w).1).2.dispatchedUri = (applySubmit w).2.dispatchedUri := by
  intro w w2 h
  refine ⟨?_, rfl, rfl⟩
  show submitPage w.page = submitPage w2.page
  rw [h]

/-- Witness for C5: a fresh world and a world with prior effect history
but the same field values give the same outcome. -/
theorem encoder_idempotent_stateless_witness :
    (applySubmit johnWorld).2 = (applySubmit johnWorldLater).2 :=
  (encoder_idempotent_stateless johnWorld johnWorldLater rfl).1

/-- Claim C6: every dropdown option whose label embeds a `$<digits>`
price token carries the price of the product card whose title equals
the option value; label without such a token are exempt. -/
theorem option_price_matches_card :
    ∀ opt ∈ dropdownOptions, ∀ p ∈ catalog,
      p.name = opt.value → optionPriceMatches opt p = true := by decide

/-- Witness for C6: the first product's option and card agree. -/
theorem option_price_matches_card_witness :
    optionPriceMatches optionRainbow productRainbow = true :=
  option_price_matches_card optionRainbow (by decide) productRainbow (by decide) rfl

/-- Claim C7: the catalog's product names are pairwise distinct, and
every product's price is a positive number rendered in the
`$<integer>` format. -/
theorem catalog_unique_names_positive_prices :
    (catalog.map Product.name).Nodup ∧
    ∀ p ∈ catalog, 0 < p.price ∧ isDollarInteger (priceText p) = true := by decide

/-- Witness for C7: the first product has a positive, `$<integer>`
formatted price. -/
theorem catalog_unique_names_positive_prices_witness :
    0 < productRainbow.price ∧ isDollarInteger (priceText productRainbow) = true :=
  catalog_unique_names_positive_prices.2 productRainbow (by decide)

/-- Claim C8: on every submission that reaches it, the Encoder calls
`preventDefault` on the triggering event, and the page's field state
is unchanged by a submit event — the only effects are the dispatched
URI and the confirmation. -/
theorem encoder_prevents_default_frame :
    ∀ w : World,
      (applySubmit w).1.page = w.page ∧
      (nativeValidationPasses w.page = true → (applySubmit w).2.preventedDefault = true) := by
  intro w
  refine ⟨rfl, fun h => ?_⟩
  show (submitPage w.page).preventedDefault = true
  rw [submitPage, if_pos h]
  rfl

/-- Witness for C8: the reference world passes validation and the
handler prevents the default action while leaving the page unchanged. -/
theorem encoder_prevents_default_frame_witness :
    (applySubmit johnWorld).1.page = johnWorld.page ∧
    (applySubmit johnWorld).2.preventedDefault = true :=
  ⟨(encoder_prevents_default_frame johnWorld).1,
   (encoder_prevents_default_frame johnWorld).2 (by decide)⟩

/-- Claim C9: for every input valuation the built body interpolates all
four submitted field values verbatim (no sanitization, escaping or
stripping happens before percent-encoding), and the subject
interpolates the selected product. -/
theorem body_interpolates_fields_verbatim (sub : FormSubmission) :
    strContains sub.name (mkMailMessage sub).body = true ∧
    strContains sub.email (mkMailMessage sub).body = true ∧
    strContains sub.selectedProduct (mkMailMessage sub).body = true ∧
    strContains sub.message (mkMailMessage sub).body = true ∧
    strContains sub.selectedProduct (mkMailMessage sub).subject = true := by
  refine ⟨?_, ?_, ?_, ?_, ?_⟩
  · have h : (mkMailMessage sub).body.data =
        "Name: ".data ++ sub.name.data ++
        (("\nEmail: " ++ sub.email ++ "\nProduct: " ++ sub.selectedProduct ++
          "\nMessage: " ++ sub.message).data) := by
      simp [mkMailMessage, mkBody, String.data_append, List.append_assoc]
    unfold strContains
    rw [h]
    exact containsChars_sandwich _ _ _
  · have h : (mkMailMessage sub).body.data =
        (("Name: " ++ sub.name ++ "\nEmail: ").data) ++ sub.email.data ++
        (("\nProduct: " ++ sub.selectedProduct ++ "\nMessage: " ++ sub.message).data) := by
      simp [mkMailMessage, mkBody, String.data_append, List.append_assoc]
    unfold strContains
    rw [h]
    exact containsChars_sandwich _ _ _
  · have h : (mkMailMessage sub).body.data =
        (("Name: " ++ sub.name ++ "\nEmail: " ++ sub.email ++ "\nProduct: ").data) ++
        sub.selectedProduct.data ++
        (("\nMessage: " ++ sub.message).data) := by
      simp [mkMailMessage, mkBody, String.data_append, List.append_assoc]
    unfold strContains
    rw [h]
    exact containsChars_sandwich _ _ _
  · have h : (mkMailMessage sub).body.data =
        (("Name: " ++ sub.name ++ "\nEmail: " ++ sub.email ++ "\nProduct: " ++
          sub.selectedProduct ++ "\nMessage: ").data) ++ sub.message.data ++
        (("" : String).data) := by
      simp [mkMailMessage, mkBody, String.data_append, List.append_assoc]
    unfold strContains
    rw [h]
    exact containsChars_sandwich _ _ _
  · have h : (mkMailMessage sub).subject.data =
        "Product Inquiry: ".data ++ sub.selectedProduct.data ++ (("" : String).data) := by
      simp [mkMailMessage, mkSubject, String.data_append]
    unfold strContains
    rw [h]
    exact containsChars_sandwich _ _ _

/-- Claim C10: the concrete page data has exactly 6 product cards of
which exactly 5 are available; the dropdown has exactly 7 options —
one empty-value placeholder whose text contains "Choose" and which
comes first, 5 product options, and one "other" entry — and every sold
product's status text is exactly "sold". -/
theorem page_cardinalities :
    catalog.length = 6 ∧
    (catalog.filter (fun p => p.available)).length = 5 ∧
    dropdownOptions.length = 7 ∧
    (dropdownOptions.filter (fun o => o.value == "")).length = 1 ∧
    dropdownOptions.head?.map DropdownOption.value = some "" ∧
    dropdownOptions.head?.map (fun o => strContains "Choose" o.label) = some true ∧
    (dropdownOptions.filter (fun o =>
      (catalog.filter (fun p => p.available)).any (fun p => p.name == o.value))).length = 5 ∧
    (dropdownOptions.filter (fun o =>
      !(o.value == "") && !(catalog.any (fun p => p.name == o.value)))).length = 1 ∧
    (catalog.filter (fun p => !p.available)).all (fun p => p.statusText == "sold") = true := by
  decide

end Dani
